import Mathlib

/-!
Verification of the parallax-carousel animation engine against its
natural-language specification.

The development is a shallow embedding of the JavaScript sources:

* `ParallaxCarousel` (scroll physics, orchestration, public API) — the large
  unnamed source file;
* `StageAnimationSystem`, `ImageZoomSystem`, `MiniSliderSystem`,
  `CrossAnimationSystem`, `TitleAnimationSystem`, `IndexAnimationSystem` —
  the per-subsystem files.

JavaScript numbers are modelled by `ℚ` (exact arithmetic idealization of
IEEE doubles).  The transcendental library calls `Math.pow` and `Math.exp`
are kept abstract: the functions that use them take extra parameters
`powq : ℚ → ℚ → ℚ` and `expq : ℚ → ℚ` standing for the numeric routines the
engine evaluates, and every theorem quantifies over them (or, in closed
statements, instantiates them with explicitly named stand-ins whose choice
the conclusion does not depend on).  Nullable JavaScript fields are
modelled by `Option`; where the source feeds a possibly-`null` value into
arithmetic or comparisons we use `Option.getD _ 0`, matching the ECMAScript
coercion `Number(null) = 0`.
-/

namespace Carousel

/-- The scroll-physics constants of `ParallaxCarousel.defaultConfig.animations`
that `updateSliderMotion` reads. -/
structure ScrollConfig where
  baseDamping : ℚ
  edgeDamping : ℚ
  edgeZone : ℚ
  minVelocity : ℚ
  positionSmoothing : ℚ
deriving DecidableEq

/-- The scroll-related fields of `ParallaxCarousel.state`. -/
structure ScrollState where
  currentPosition : ℚ
  smoothPosition : ℚ
  velocity : ℚ
  targetPosition : Option ℚ
  minScroll : ℚ
  maxScroll : ℚ
deriving DecidableEq

/-- `ParallaxCarousel.expDecay(start, end, decay, progress)`:
`start + (end - start) * (1 - Math.exp(-decay * progress))`, with `Math.exp`
abstracted as `expq`. -/
def expDecay (expq : ℚ → ℚ) (start stop decay progress : ℚ) : ℚ :=
  start + (stop - start) * (1 - expq (-decay * progress))

/-- `animations` block of `ParallaxCarousel.defaultConfig` (the fields used by
the physics tick). -/
def defaultAnimations : ScrollConfig :=
  { baseDamping := 0.8
    edgeDamping := 0.7
    edgeZone := 0.5
    minVelocity := 0.001
    positionSmoothing := 0.075 }

/-- First block of `ParallaxCarousel.updateSliderMotion`: the
`targetPosition` handling.  If a target is pending and the remaining distance
is below `0.1`, position snaps to the target, the target is cleared and
velocity zeroed; otherwise velocity is overridden to
`positionSmoothing * distanceToTarget`. -/
def targetStep (cfg : ScrollConfig) (s : ScrollState) : ScrollState :=
  match s.targetPosition with
  | none => s
  | some t =>
    let distanceToTarget := t - s.currentPosition
    if |distanceToTarget| < 0.1 then
      { s with currentPosition := t, targetPosition := none, velocity := 0 }
    else
      { s with velocity := cfg.positionSmoothing * distanceToTarget }

/-- Damping selection of `ParallaxCarousel.updateSliderMotion`: base damping,
except interpolated from `edgeDamping` toward `baseDamping` (via `expDecay`
keyed by the normalized distance) when the velocity points at a nearby edge.
The distances are the ones computed at the top of the tick. -/
def dampingFactor (expq : ℚ → ℚ) (cfg : ScrollConfig)
    (distanceToMin distanceToMax edgeZone velocity : ℚ) : ℚ :=
  if (distanceToMin < edgeZone ∧ velocity < 0) ∨
      (distanceToMax < edgeZone ∧ velocity > 0) then
    let edgeDistance := if velocity < 0 then distanceToMin else distanceToMax
    let edgeFactor := max 0 (edgeDistance / edgeZone)
    expDecay expq cfg.edgeDamping cfg.baseDamping 1 edgeFactor
  else
    cfg.baseDamping

/-- Integration-and-clamp block of `ParallaxCarousel.updateSliderMotion`: when
the (damped) velocity is above `minVelocity` or a target is pending, position
advances by `velocity * dt` and is clamped to `[minScroll, maxScroll]`; a
clamp zeroes the velocity and clears the target. -/
def moveStep (cfg : ScrollConfig) (s : ScrollState) (dt : ℚ) : ScrollState :=
  if |s.velocity| > cfg.minVelocity ∨ s.targetPosition ≠ none then
    let newPosition := s.currentPosition + s.velocity * dt
    if newPosition < s.minScroll then
      { s with currentPosition := s.minScroll, velocity := 0, targetPosition := none }
    else if newPosition > s.maxScroll then
      { s with currentPosition := s.maxScroll, velocity := 0, targetPosition := none }
    else
      { s with currentPosition := newPosition }
  else
    s

/-- Target handling followed by `velocity *= Math.pow(damping, dt)` (with
`Math.pow` abstracted as `powq`) inside `ParallaxCarousel.updateSliderMotion`.
The edge distances feeding the damping are computed from the state at entry to
the tick — before any target snap — exactly as in the source, which computes
them at the top of the function. -/
def dampedStep (powq : ℚ → ℚ → ℚ) (expq : ℚ → ℚ) (cfg : ScrollConfig)
    (s : ScrollState) (dt : ℚ) : ScrollState :=
  let distanceToMin := s.currentPosition - s.minScroll
  let distanceToMax := s.maxScroll - s.currentPosition
  let range := s.maxScroll - s.minScroll
  let edgeZone := range * cfg.edgeZone
  let s1 := targetStep cfg s
  let damping := dampingFactor expq cfg distanceToMin distanceToMax edgeZone s1.velocity
  { s1 with velocity := s1.velocity * powq damping dt }

/-- `ParallaxCarousel.updateSliderMotion(dt)`: target handling, damping,
integration with clamping, then the `smoothPosition` exponential decay. -/
def updateSliderMotion (powq : ℚ → ℚ → ℚ) (expq : ℚ → ℚ) (cfg : ScrollConfig)
    (s : ScrollState) (dt : ℚ) : ScrollState :=
  let s3 := moveStep cfg (dampedStep powq expq cfg s dt) dt
  { s3 with
    smoothPosition := expDecay expq s3.smoothPosition s3.currentPosition cfg.positionSmoothing dt }

/-- `ParallaxCarousel.updateTargetPosition(imageIndex)`.  `viewportCenter` is
the ambient `window.innerWidth / 2`. -/
def updateTargetPosition (viewportCenter maskWidth maskGap : ℚ) (imageIndex : ℕ)
    (s : ScrollState) : ScrollState :=
  let maskX := viewportCenter - maskWidth / 2 +
    (imageIndex : ℚ) * (maskWidth + maskGap) - s.smoothPosition
  let centeredX := viewportCenter - maskWidth / 2
  let moveDistance := maskX - centeredX
  { s with targetPosition := some (s.currentPosition + moveDistance) }

/-- `ParallaxCarousel.calculateBoundaries()`: `minScroll = 0`,
`maxScroll = (n - 1) * (maskWidth + maskGap)`, position clamped into the new
bounds and `smoothPosition` synced to it. -/
def calculateBoundaries (nImages : ℕ) (maskWidth maskGap : ℚ)
    (s : ScrollState) : ScrollState :=
  let totalWidth := ((nImages : ℚ) - 1) * (maskWidth + maskGap)
  let pos := max 0 (min totalWidth s.currentPosition)
  { s with
    minScroll := 0
    maxScroll := totalWidth
    currentPosition := pos
    smoothPosition := pos }

theorem targetStep_fields (cfg : ScrollConfig) (s : ScrollState) :
    (targetStep cfg s).minScroll = s.minScroll ∧
    (targetStep cfg s).maxScroll = s.maxScroll ∧
    (targetStep cfg s).smoothPosition = s.smoothPosition := by
  unfold targetStep
  cases s.targetPosition <;> simp <;> split_ifs <;> simp

theorem targetStep_pos_bounds (cfg : ScrollConfig) (s : ScrollState)
    (htgt : ∀ t, s.targetPosition = some t → s.minScroll ≤ t ∧ t ≤ s.maxScroll)
    (hlo : s.minScroll ≤ s.currentPosition) (hhi : s.currentPosition ≤ s.maxScroll) :
    s.minScroll ≤ (targetStep cfg s).currentPosition ∧
    (targetStep cfg s).currentPosition ≤ s.maxScroll := by
  unfold targetStep
  cases hT : s.targetPosition with
  | none => exact ⟨hlo, hhi⟩
  | some t =>
    simp only []
    split_ifs with h
    · simpa using htgt t hT
    · exact ⟨hlo, hhi⟩

theorem targetStep_target (cfg : ScrollConfig) (s : ScrollState) (t : ℚ)
    (h : (targetStep cfg s).targetPosition = some t) : s.targetPosition = some t := by
  cases hT : s.targetPosition with
  | none => simpa [targetStep, hT] using h
  | some u =>
    simp only [targetStep, hT] at h
    split_ifs at h with hc
    · simp at h
      rw [h]

theorem dampedStep_fields (powq : ℚ → ℚ → ℚ) (expq : ℚ → ℚ) (cfg : ScrollConfig)
    (s : ScrollState) (dt : ℚ) :
    (dampedStep powq expq cfg s dt).minScroll = (targetStep cfg s).minScroll ∧
    (dampedStep powq expq cfg s dt).maxScroll = (targetStep cfg s).maxScroll ∧
    (dampedStep powq expq cfg s dt).currentPosition = (targetStep cfg s).currentPosition ∧
    (dampedStep powq expq cfg s dt).targetPosition = (targetStep cfg s).targetPosition := by
  exact ⟨rfl, rfl, rfl, rfl⟩

theorem moveStep_fields (cfg : ScrollConfig) (s : ScrollState) (dt : ℚ) :
    (moveStep cfg s dt).minScroll = s.minScroll ∧
    (moveStep cfg s dt).maxScroll = s.maxScroll ∧
    (moveStep cfg s dt).smoothPosition = s.smoothPosition := by
  simp only [moveStep]
  split_ifs <;> simp

theorem moveStep_pos_bounds (cfg : ScrollConfig) (s : ScrollState) (dt : ℚ)
    (hmm : s.minScroll ≤ s.maxScroll)
    (hlo : s.minScroll ≤ s.currentPosition) (hhi : s.currentPosition ≤ s.maxScroll) :
    s.minScroll ≤ (moveStep cfg s dt).currentPosition ∧
    (moveStep cfg s dt).currentPosition ≤ s.maxScroll := by
  simp only [moveStep]
  split_ifs with h1 h2 h3
  · exact ⟨le_refl s.minScroll, hmm⟩
  · exact ⟨hmm, le_refl s.maxScroll⟩
  · exact ⟨le_of_not_lt h2, le_of_not_lt h3⟩
  · exact ⟨hlo, hhi⟩

theorem moveStep_target (cfg : ScrollConfig) (s : ScrollState) (dt : ℚ) (t : ℚ)
    (h : (moveStep cfg s dt).targetPosition = some t) : s.targetPosition = some t := by
  simp only [moveStep] at h
  split_ifs at h <;> simp_all

theorem updateSliderMotion_proj (powq : ℚ → ℚ → ℚ) (expq : ℚ → ℚ) (cfg : ScrollConfig)
    (s : ScrollState) (dt : ℚ) :
    (updateSliderMotion powq expq cfg s dt).currentPosition =
      (moveStep cfg (dampedStep powq expq cfg s dt) dt).currentPosition ∧
    (updateSliderMotion powq expq cfg s dt).minScroll =
      (moveStep cfg (dampedStep powq expq cfg s dt) dt).minScroll ∧
    (updateSliderMotion powq expq cfg s dt).maxScroll =
      (moveStep cfg (dampedStep powq expq cfg s dt) dt).maxScroll ∧
    (updateSliderMotion powq expq cfg s dt).velocity =
      (moveStep cfg (dampedStep powq expq cfg s dt) dt).velocity ∧
    (updateSliderMotion powq expq cfg s dt).targetPosition =
      (moveStep cfg (dampedStep powq expq cfg s dt) dt).targetPosition := by
  exact ⟨rfl, rfl, rfl, rfl, rfl⟩

/-- C1, amended.  A single physics tick keeps `currentPosition` within
`[minScroll, maxScroll]` — for any velocity, any `dt`, and any numeric
realization of `Math.pow`/`Math.exp` — provided any pending `targetPosition`
also lies within the bounds (without that proviso the claim fails, see the
counterexample); the bounds themselves, and the in-bounds property of any
surviving target, are preserved, so the invariant holds after every sequence
of such ticks.  Moreover, whenever the integration branch clamps the position
at a bound, the velocity is zeroed and the pending target cleared. -/
theorem scroll_tick_preserves_bounds
    (powq : ℚ → ℚ → ℚ) (expq : ℚ → ℚ) (cfg : ScrollConfig) (s : ScrollState) (dt : ℚ)
    (hmm : s.minScroll ≤ s.maxScroll)
    (hlo : s.minScroll ≤ s.currentPosition) (hhi : s.currentPosition ≤ s.maxScroll)
    (htgt : ∀ t, s.targetPosition = some t → s.minScroll ≤ t ∧ t ≤ s.maxScroll) :
    ((updateSliderMotion powq expq cfg s dt).minScroll = s.minScroll ∧
      (updateSliderMotion powq expq cfg s dt).maxScroll = s.maxScroll) ∧
    (s.minScroll ≤ (updateSliderMotion powq expq cfg s dt).currentPosition ∧
      (updateSliderMotion powq expq cfg s dt).currentPosition ≤ s.maxScroll) ∧
    (∀ t, (updateSliderMotion powq expq cfg s dt).targetPosition = some t →
      s.minScroll ≤ t ∧ t ≤ s.maxScroll) ∧
    (∀ (s2 : ScrollState) (dt2 : ℚ),
      (|s2.velocity| > cfg.minVelocity ∨ s2.targetPosition ≠ none) →
      (s2.currentPosition + s2.velocity * dt2 < s2.minScroll ∨
        s2.currentPosition + s2.velocity * dt2 > s2.maxScroll) →
      (moveStep cfg s2 dt2).velocity = 0 ∧
      (moveStep cfg s2 dt2).targetPosition = none ∧
      ((moveStep cfg s2 dt2).currentPosition = s2.minScroll ∨
        (moveStep cfg s2 dt2).currentPosition = s2.maxScroll)) := by
  obtain ⟨ht1, ht2, ht3⟩ := targetStep_fields cfg s
  obtain ⟨hd1, hd2, hd3, hd4⟩ := dampedStep_fields powq expq cfg s dt
  obtain ⟨hm1, hm2, hm3⟩ := moveStep_fields cfg (dampedStep powq expq cfg s dt) dt
  obtain ⟨hp1, hp2, hp3, hp4, hp5⟩ := updateSliderMotion_proj powq expq cfg s dt
  obtain ⟨hb1, hb2⟩ := targetStep_pos_bounds cfg s htgt hlo hhi
  have hmb := moveStep_pos_bounds cfg (dampedStep powq expq cfg s dt) dt
    (by rw [hd1, ht1, hd2, ht2]; exact hmm)
    (by rw [hd1, ht1, hd3]; exact hb1)
    (by rw [hd2, ht2, hd3]; exact hb2)
  refine ⟨⟨?_, ?_⟩, ⟨?_, ?_⟩, ?_, ?_⟩
  · rw [hp2, hm1, hd1, ht1]
  · rw [hp3, hm2, hd2, ht2]
  · rw [hp1]
    have := hmb.1
    rwa [hd1, ht1] at this
  · rw [hp1]
    have := hmb.2
    rwa [hd2, ht2] at this
  · intro t hsome
    rw [hp5] at hsome
    have h1 := moveStep_target cfg (dampedStep powq expq cfg s dt) dt t hsome
    rw [hd4] at h1
    exact htgt t (targetStep_target cfg s t h1)
  · intro s2 dt2 hcond hout
    simp only [moveStep]
    rw [if_pos hcond]
    split_ifs with ha hb
    · exact ⟨rfl, rfl, Or.inl rfl⟩
    · exact ⟨rfl, rfl, Or.inr rfl⟩
    · exact absurd hout (by push_neg; exact ⟨le_of_not_lt ha, le_of_not_lt hb⟩)

/-- Concrete stand-in for `Math.pow` used in closed statements.
`powApprox x 1 = x` agrees exactly with `Math.pow(x, 1)`, the only use a
`dt = 1` tick makes of it; the closed statements below do not otherwise
depend on the choice. -/
def powApprox (x y : ℚ) : ℚ := x + 0 * y

/-- Concrete stand-in for `Math.exp` used in closed statements (first-order
approximation); the conclusions asserted below do not depend on it — it only
feeds `smoothPosition` and the damping of an already-zero velocity. -/
def expApprox (x : ℚ) : ℚ := 1 + x

/-- A scroll state of the shape physics produces: position clamped at
`maxScroll` for two images of default dimensions
(`maxScroll = 378 + 30 = 408`), with the lagged `smoothPosition` still
`0.05` behind. -/
def cexScrollState : ScrollState :=
  { currentPosition := 408
    smoothPosition := 407.95
    velocity := 0
    targetPosition := none
    minScroll := 0
    maxScroll := 408 }

/-- C1, counterexample to the claim as stated: starting from a state with
`currentPosition ∈ [minScroll, maxScroll]` (position `408` at the
`maxScroll = 408` edge, `smoothPosition` lagging at `407.95`), the
programmatic navigation `updateTargetPosition(1)` computes the target
`408.05 > maxScroll`, and the next physics tick (`dt = 1`) snaps
`currentPosition` to it — the snap happens before the clamp, so the tick ends
with `currentPosition = 408.05` outside `[0, 408]`. -/
theorem scroll_tick_escapes_bounds :
    (cexScrollState.minScroll ≤ cexScrollState.currentPosition ∧
      cexScrollState.currentPosition ≤ cexScrollState.maxScroll) ∧
    (updateSliderMotion powApprox expApprox defaultAnimations
        (updateTargetPosition 864 378 30 1 cexScrollState) 1).maxScroll = 408 ∧
    (updateSliderMotion powApprox expApprox defaultAnimations
        (updateTargetPosition 864 378 30 1 cexScrollState) 1).currentPosition = 408.05 := by
  norm_num [updateSliderMotion, moveStep, dampedStep, targetStep, dampingFactor,
    expDecay, updateTargetPosition, cexScrollState, defaultAnimations, powApprox,
    expApprox, abs_lt]

/-- A concrete in-bounds scroll state with a pending in-bounds target just
within the snap epsilon, used by the closed witness statements. -/
def wTargetState : ScrollState :=
  { currentPosition := 100
    smoothPosition := 100
    velocity := 7
    targetPosition := some 100.05
    minScroll := 0
    maxScroll := 408 }

/-- C1 witness: a concrete in-bounds state with an in-bounds pending target
stays within the bounds after a tick. -/
theorem scroll_tick_preserves_bounds_witness :
    wTargetState.minScroll ≤
      (updateSliderMotion powApprox expApprox defaultAnimations wTargetState 1).currentPosition ∧
    (updateSliderMotion powApprox expApprox defaultAnimations wTargetState 1).currentPosition ≤
      wTargetState.maxScroll :=
  (scroll_tick_preserves_bounds powApprox expApprox defaultAnimations wTargetState 1
    (by norm_num [wTargetState]) (by norm_num [wTargetState]) (by norm_num [wTargetState])
    (by rintro t h; simp [wTargetState] at h; subst h; norm_num [wTargetState])).2.1

/-- C4: while a `targetPosition` is pending, the physics tick overrides the
velocity — the whole tick result is independent of the incoming velocity —
assigning `positionSmoothing * (target - position)` when the remaining
distance is at least the `0.1` epsilon; when the distance is below the
epsilon, the tick ends with the position exactly at the target, the target
cleared and the velocity zero (the last part assumes the configured
`minVelocity` is nonnegative, as the default `0.001` is). -/
theorem target_tick_overrides_velocity
    (powq : ℚ → ℚ → ℚ) (expq : ℚ → ℚ) (cfg : ScrollConfig) (s : ScrollState)
    (dt t : ℚ) (hmv : 0 ≤ cfg.minVelocity) (ht : s.targetPosition = some t) :
    (∀ v, updateSliderMotion powq expq cfg { s with velocity := v } dt =
      updateSliderMotion powq expq cfg s dt) ∧
    (¬ |t - s.currentPosition| < 0.1 →
      (targetStep cfg s).velocity = cfg.positionSmoothing * (t - s.currentPosition)) ∧
    (|t - s.currentPosition| < 0.1 →
      (updateSliderMotion powq expq cfg s dt).currentPosition = t ∧
      (updateSliderMotion powq expq cfg s dt).targetPosition = none ∧
      (updateSliderMotion powq expq cfg s dt).velocity = 0) := by
  have htv : ∀ v, targetStep cfg { s with velocity := v } = targetStep cfg s := by
    intro v
    simp only [targetStep, ht]
  refine ⟨?_, ?_, ?_⟩
  · intro v
    simp only [updateSliderMotion, dampedStep, htv]
  · intro hc
    simp only [targetStep, ht]
    rw [if_neg hc]
  · intro hc
    have h1 : targetStep cfg s =
        { s with currentPosition := t, targetPosition := none, velocity := 0 } := by
      simp only [targetStep, ht]
      rw [if_pos hc]
    have h2 : dampedStep powq expq cfg s dt =
        { s with currentPosition := t, targetPosition := none, velocity := 0 } := by
      simp [dampedStep, h1]
    have h3 : moveStep cfg (dampedStep powq expq cfg s dt) dt =
        dampedStep powq expq cfg s dt := by
      rw [h2]
      simp [moveStep, not_lt.mpr hmv]
    obtain ⟨hp1, hp2, hp3, hp4, hp5⟩ := updateSliderMotion_proj powq expq cfg s dt
    refine ⟨?_, ?_, ?_⟩
    · rw [hp1, h3, h2]
    · rw [hp5, h3, h2]
    · rw [hp4, h3, h2]

/-- C4 witness: at a concrete state whose pending target is `0.05` away, the
tick snaps the position to the target, clears it and zeroes the velocity. -/
theorem target_tick_overrides_velocity_witness :
    (updateSliderMotion powApprox expApprox defaultAnimations wTargetState 1).currentPosition
        = 100.05 ∧
    (updateSliderMotion powApprox expApprox defaultAnimations wTargetState 1).targetPosition
        = none ∧
    (updateSliderMotion powApprox expApprox defaultAnimations wTargetState 1).velocity = 0 :=
  (target_tick_overrides_velocity powApprox expApprox defaultAnimations wTargetState 1 100.05
    (by norm_num [defaultAnimations]) rfl).2.2
    (by norm_num [wTargetState, abs_lt])

/-- One `{offset, targetOffset}` sub-object of a stage slot (the `image` and
`mask` fields of `StageAnimationSystem` stage entries). -/
structure OffsetPair where
  offset : ℚ
  targetOffset : ℚ
deriving DecidableEq

/-- One entry of `StageAnimationSystem.state.stages`. -/
structure Stage where
  imageIndex : ℕ
  image : OffsetPair
  mask : OffsetPair
deriving DecidableEq

/-- `StageAnimationSystem.state`. -/
structure StageState where
  stages : List Stage
  renderOrder : List ℕ
  currentIndex : Option ℕ
  isTransitioning : Bool
  isJumpTransition : Bool
deriving DecidableEq

/-- `StageAnimationSystem.params.imageSmoothing`. -/
def imageSmoothing : ℚ := 0.4

/-- `StageAnimationSystem.params.maskSmoothing`. -/
def maskSmoothing : ℚ := 0.4

/-- `StageAnimationSystem.params.minThreshold`. -/
def stageMinThreshold : ℚ := 0.00001

/-- `StageAnimationSystem.updateRenderOrder(currentIndex)`: centered slot
first, then the slots before it in reverse order, then the slots after it in
order. -/
def updateRenderOrder (currentIndex totalLength : ℕ) : List ℕ :=
  let beforeElements := (List.range currentIndex).reverse
  let afterElements :=
    (List.range (totalLength - currentIndex - 1)).map fun i => currentIndex + 1 + i
  currentIndex :: (beforeElements ++ afterElements)

/-- `StageAnimationSystem.initialize(nImages)` (called from the constructor):
every slot centered with zero offsets and targets. -/
def stageInit (nImages : ℕ) : StageState :=
  { stages := (List.range nImages).map fun index =>
      { imageIndex := index
        image := { offset := 0, targetOffset := 0 }
        mask := { offset := 0, targetOffset := 0 } }
    renderOrder := List.range nImages
    currentIndex := none
    isTransitioning := false
    isJumpTransition := false }

/-- `StageAnimationSystem.initializeStage(imageIndex)`: snap every slot's
offsets and targets according to its side of the centered slot. -/
def initializeStage (imageIndex : ℕ) (s : StageState) : StageState :=
  { s with
    stages := s.stages.mapIdx fun index stage =>
      if index < imageIndex then
        { stage with
          image := { offset := -0.5, targetOffset := -0.5 }
          mask := { offset := -1, targetOffset := -1 } }
      else if index > imageIndex then
        { stage with
          image := { offset := 0.5, targetOffset := 0.5 }
          mask := { offset := 1, targetOffset := 1 } }
      else
        { stage with
          image := { offset := 0, targetOffset := 0 }
          mask := { offset := 0, targetOffset := 0 } }
    currentIndex := some imageIndex
    isTransitioning := false
    renderOrder := updateRenderOrder imageIndex s.stages.length }

/-- `StageAnimationSystem.transitionTo(newIndex)`.  The JS comparison
`newIndex > this.state.currentIndex` coerces a `null` current index to `0`
(`Number(null) = 0`), modelled by `Option.getD _ 0`; the equality test
`idx === this.state.currentIndex` is false for `null`, modelled by comparing
with the `Option` value. -/
def transitionTo (newIndex : ℕ) (s : StageState) : StageState :=
  if some newIndex = s.currentIndex then s
  else
    let stages :=
      if s.isJumpTransition then
        s.stages.mapIdx fun idx stage =>
          if idx = newIndex then
            { stage with
              image := { stage.image with targetOffset := 0 }
              mask := { stage.mask with targetOffset := 0 } }
          else if some idx = s.currentIndex then
            let direction : ℚ := if newIndex > s.currentIndex.getD 0 then -1 else 1
            { stage with
              image := { stage.image with targetOffset := direction * 0.5 }
              mask := { stage.mask with targetOffset := direction } }
          else
            let direction : ℚ := if newIndex > idx then -1 else 1
            { stage with
              image := { offset := direction * 0.5, targetOffset := direction * 0.5 }
              mask := { offset := direction, targetOffset := direction } }
      else
        s.stages.mapIdx fun idx stage =>
          let direction : ℚ := if newIndex > idx then -1 else 1
          if idx = newIndex then
            { stage with
              image := { stage.image with targetOffset := 0 }
              mask := { stage.mask with targetOffset := 0 } }
          else
            { stage with
              image := { stage.image with targetOffset := direction * 0.5 }
              mask := { stage.mask with targetOffset := direction } }
    { s with
      stages := stages
      currentIndex := some newIndex
      isTransitioning := true
      renderOrder := updateRenderOrder newIndex s.stages.length
      isJumpTransition := false }

/-- `StageAnimationSystem.jumpToImage(newIndex)`: set the jump flag, then run
`transitionTo` (which consumes the flag). -/
def stageJumpToImage (newIndex : ℕ) (s : StageState) : StageState :=
  if some newIndex = s.currentIndex then s
  else transitionTo newIndex { s with isJumpTransition := true }

/-- `StageAnimationSystem.updateAnimation(dt)`: proportional closing of every
offset toward its target; completion is judged from the pre-update image
deltas, and ends the transition. -/
def stageUpdate (dt : ℚ) (s : StageState) : StageState :=
  if s.isTransitioning then
    let imageSpeed := imageSmoothing * dt
    let maskSpeed := maskSmoothing * dt
    let stages := s.stages.map fun stage =>
      { stage with
        image := { stage.image with
          offset := stage.image.offset +
            (stage.image.targetOffset - stage.image.offset) * imageSpeed }
        mask := { stage.mask with
          offset := stage.mask.offset +
            (stage.mask.targetOffset - stage.mask.offset) * maskSpeed } }
    let allComplete := s.stages.all fun stage =>
      ¬ |stage.image.targetOffset - stage.image.offset| > stageMinThreshold
    { s with stages := stages, isTransitioning := !allComplete }
  else
    s

/-- C2: immediately after a jump transition `jumpToImage(n)` from centered
slot `c ≠ n`, every slot other than `c` and `n` has been snapped
(`offset = targetOffset` for both image and mask), while the two endpoint
slots keep their current offsets and receive the new targets (`0` for the
newly-centered slot `n`; `direction * 0.5` / `direction` for the
previously-centered slot `c`); the jump flag is false again after this
single consumption. -/
theorem jump_transition_snaps_non_endpoints
    (s : StageState) (c n : ℕ)
    (hc : s.currentIndex = some c) (hne : n ≠ c) :
    (stageJumpToImage n s).isJumpTransition = false ∧
    (stageJumpToImage n s).stages.length = s.stages.length ∧
    ∀ (i : ℕ) (st0 st : Stage),
      s.stages.get? i = some st0 →
      (stageJumpToImage n s).stages.get? i = some st →
      (i ≠ c → i ≠ n →
        st.image.offset = st.image.targetOffset ∧
        st.mask.offset = st.mask.targetOffset) ∧
      (i = n →
        st.image.offset = st0.image.offset ∧
        st.mask.offset = st0.mask.offset ∧
        st.image.targetOffset = 0 ∧
        st.mask.targetOffset = 0) ∧
      (i = c →
        st.image.offset = st0.image.offset ∧
        st.mask.offset = st0.mask.offset ∧
        st.image.targetOffset = (if n > c then (-1 : ℚ) else 1) * 0.5 ∧
        st.mask.targetOffset = (if n > c then (-1 : ℚ) else 1)) := by
  refine ⟨?_, ?_, ?_⟩
  · simp [stageJumpToImage, transitionTo, hc, hne]
  · simp [stageJumpToImage, transitionTo, hc, hne]
  · intro i st0 st h0 h1
    simp only [stageJumpToImage, transitionTo, hc, Option.some.injEq, hne, if_false,
      if_true, eq_self_iff_true, Option.getD_some] at h1
    rw [List.get?_eq_some] at h0 h1
    obtain ⟨hlen0, hget0⟩ := h0
    obtain ⟨hlen1, hget1⟩ := h1
    rw [List.get_mapIdx _ _ i (by simpa using hlen1)] at hget1
    rw [hget0] at hget1
    subst hget1
    refine ⟨?_, ?_, ?_⟩
    · intro hic hin
      simp [hin, hic]
    · intro hin
      subst hin
      simp [hne]
    · intro hic
      subst hic
      simp [hne, Ne.symm hne]

/-- Slot 0 of the concrete three-slot stage state below. -/
def wSlot0 : Stage :=
  { imageIndex := 0
    image := { offset := -0.5, targetOffset := -0.5 }
    mask := { offset := -1, targetOffset := -1 } }

/-- Concrete three-slot stage state with slot 1 centered (offsets as
`initializeStage 1` sets them). -/
def wStageState : StageState :=
  { stages :=
      [ wSlot0,
        { imageIndex := 1
          image := { offset := 0, targetOffset := 0 }
          mask := { offset := 0, targetOffset := 0 } },
        { imageIndex := 2
          image := { offset := 0.5, targetOffset := 0.5 }
          mask := { offset := 1, targetOffset := 1 } } ]
    renderOrder := [1, 0, 2]
    currentIndex := some 1
    isTransitioning := false
    isJumpTransition := false }

/-- Slot 0 after jumping from centered slot 1 to slot 2: snapped to its new
target on the left. -/
def wSnapSlot0 : Stage :=
  { imageIndex := 0
    image := { offset := -1 * 0.5, targetOffset := -1 * 0.5 }
    mask := { offset := -1, targetOffset := -1 } }

/-- C2 witness: jumping from centered slot 1 to slot 2 of the concrete
three-slot state clears the jump flag and leaves the non-endpoint slot 0
snapped (`offset = targetOffset` for image and mask alike). -/
theorem jump_transition_snaps_non_endpoints_witness :
    (stageJumpToImage 2 wStageState).isJumpTransition = false ∧
    (stageJumpToImage 2 wStageState).stages.get? 0 = some wSnapSlot0 ∧
    wSnapSlot0.image.offset = wSnapSlot0.image.targetOffset ∧
    wSnapSlot0.mask.offset = wSnapSlot0.mask.targetOffset := by
  have h := jump_transition_snaps_non_endpoints wStageState 1 2 rfl (by decide)
  have hg : (stageJumpToImage 2 wStageState).stages.get? 0 = some wSnapSlot0 := rfl
  exact ⟨h.1, hg, (h.2.2 0 wSlot0 wSnapSlot0 rfl hg).1 (by decide) (by decide)⟩

/-- `MiniSliderSystem.state.mode` values. -/
inductive MiniMode where
  | inactive
  | toMini
  | toSlider
deriving DecidableEq

/-- `MiniSliderSystem.state`. -/
structure MiniState where
  mode : MiniMode
  progress : ℚ
  zoomedImageIndex : Option ℕ
  lastProgress : Option ℚ
deriving DecidableEq

/-- `MiniSliderSystem.config.motion`. -/
structure MiniMotionConfig where
  progressSpeed : ℚ
  smoothing : ℚ
  staggerStrength : ℚ
deriving DecidableEq

/-- The `motion` block of the `MiniSliderSystem` constructor configuration. -/
def defaultMiniMotion : MiniMotionConfig :=
  { progressSpeed := 0.006, smoothing := 0.2, staggerStrength := 0.75 }

/-- `MiniSliderSystem.toMini(zoomedIndex)`. -/
def miniToMini (zoomedIndex : ℕ) (s : MiniState) : MiniState :=
  { s with mode := .toMini, progress := 0, zoomedImageIndex := some zoomedIndex }

/-- `MiniSliderSystem.toSlider()`: no-op while inactive. -/
def miniToSlider (s : MiniState) : MiniState :=
  if s.mode = .inactive then s
  else { s with progress := 0, mode := .toSlider }

/-- `MiniSliderSystem.setInactive()`. -/
def setInactive (s : MiniState) : MiniState :=
  { s with mode := .inactive, progress := 0 }

/-- `MiniSliderSystem.isActive()`. -/
def miniIsActive (s : MiniState) : Bool :=
  s.mode ≠ .inactive

/-- `MiniSliderSystem.isInToMiniMode()`. -/
def miniIsInToMiniMode (s : MiniState) : Bool :=
  s.mode = .toMini

/-- `MiniSliderSystem.isInToSliderMode()`. -/
def miniIsInToSliderMode (s : MiniState) : Bool :=
  s.mode = .toSlider

/-- `MiniSliderSystem.calculateStaggerDelay(index, totalImages, mode)`.
`Math.pow(distance, 1.25)` is abstracted as `pow125 : ℕ → ℚ` (the base is
always the natural-number distance `|index - zoomedImageIndex|`); a `null`
`zoomedImageIndex` coerces to `0` in the JS arithmetic, modelled by
`Option.getD _ 0`. -/
def calculateStaggerDelay (pow125 : ℕ → ℚ) (cfg : MiniMotionConfig)
    (index totalImages : ℕ) (mode : MiniMode) (s : MiniState) : ℚ :=
  if mode = .toMini then
    let distance := ((index : ℤ) - (s.zoomedImageIndex.getD 0 : ℤ)).natAbs
    max 0 (pow125 distance / ((totalImages : ℚ) * totalImages) * cfg.staggerStrength)
  else
    let normalizedIndex := ((index : ℚ) + 1) / ((totalImages : ℚ) - 1)
    normalizedIndex * 0.125

/-- `MiniSliderSystem.calculateImageProgress(index, totalImages)`: the
per-item stagger-adjusted effective progress. -/
def calculateImageProgress (pow125 : ℕ → ℚ) (cfg : MiniMotionConfig)
    (index totalImages : ℕ) (s : MiniState) : ℚ :=
  let toSliderDelay := calculateStaggerDelay pow125 cfg index totalImages .toSlider s
  let toMiniModeDelay := calculateStaggerDelay pow125 cfg index totalImages .toMini s
  if s.mode = .toMini then
    let adjustedProgress := max 0 (s.progress - toMiniModeDelay / (1 - toMiniModeDelay))
    min 1 (max 0 adjustedProgress)
  else if s.progress - toSliderDelay < 0 ∧ s.mode = .toSlider then
    -(max 0 (s.lastProgress.getD 0 - toMiniModeDelay / (1 - toMiniModeDelay)))
  else
    (s.progress - toSliderDelay) / (1 - toSliderDelay)

/-- `MiniSliderSystem.updateAnimation(dt)`: linear progress advance clamped
to `[0, 1]`; in `toSlider` mode `lastProgress` advances identically. -/
def miniUpdate (cfg : MiniMotionConfig) (dt : ℚ) (s : MiniState) : MiniState :=
  if s.mode = .inactive then s
  else
    let progressDelta := cfg.progressSpeed * dt
    let s1 := { s with progress := max 0 (min 1 (s.progress + progressDelta)) }
    if s.mode = .toSlider then
      { s1 with lastProgress := some (max 0 (min 1 (s.lastProgress.getD 0 + progressDelta))) }
    else
      s1

/-- C5, amended.  In `toMini` mode, an item whose stagger delay is below `1`
(the farthest item included) reaches effective progress `1` no earlier than
the focused item: at every shared progress value where the item's effective
progress is `1`, the focused item's effective progress is already `1`.
(The delay-below-one proviso is forced by the counterexample: for
stagger-strength values large enough to push a delay to `1` or beyond, the
`delay / (1 - delay)` term is no longer nonnegative and the far item reaches
full progress first.) -/
theorem toMini_farthest_not_earlier
    (pow125 : ℕ → ℚ) (cfg : MiniMotionConfig) (s : MiniState)
    (f far n : ℕ)
    (hmode : s.mode = .toMini) (hz : s.zoomedImageIndex = some f)
    (hp0 : pow125 0 = 0)
    (hdelay : calculateStaggerDelay pow125 cfg far n .toMini s < 1)
    (h1 : calculateImageProgress pow125 cfg far n s = 1) :
    calculateImageProgress pow125 cfg f n s = 1 := by
  have hdnn : 0 ≤ calculateStaggerDelay pow125 cfg far n .toMini s := by
    simp only [calculateStaggerDelay, if_pos rfl]
    exact le_max_left 0 _
  set d := calculateStaggerDelay pow125 cfg far n .toMini s with hd
  have hq : 0 ≤ d / (1 - d) := div_nonneg hdnn (by linarith)
  simp only [calculateImageProgress] at h1 ⊢
  rw [if_pos hmode] at h1 ⊢
  rcases le_or_lt 1 (s.progress - d / (1 - d)) with hE | hE
  · have hfd : calculateStaggerDelay pow125 cfg f n .toMini s = 0 := by
      simp [calculateStaggerDelay, hz, hp0]
    rw [hfd, zero_div, sub_zero]
    have hp2 : (1 : ℚ) ≤ s.progress := by linarith
    rw [max_eq_right (by linarith : (0 : ℚ) ≤ s.progress)]
    rw [max_eq_right (by linarith : (0 : ℚ) ≤ s.progress)]
    exact min_eq_left hp2
  · exfalso
    have hmax : max 0 (max 0 (s.progress - d / (1 - d))) < 1 :=
      max_lt one_pos (max_lt one_pos hE)
    rw [min_eq_right (le_of_lt hmax)] at h1
    rw [h1] at hmax
    exact lt_irrefl 1 hmax

/-- Concrete stand-in for `Math.pow(d, 1.25)`; it agrees exactly with the
JavaScript value at the only bases the closed statements below use
(`0 ↦ 0` and `1 ↦ 1`). -/
def pow125Approx (d : ℕ) : ℚ := d

/-- A `toMini` mini-slider state at shared progress `0`, focused on item 0. -/
def cexMiniState : MiniState :=
  { mode := .toMini
    progress := 0
    zoomedImageIndex := some 0
    lastProgress := none }

/-- The mini-slider motion constants with a stagger strength of `5 > 0`. -/
def cexMiniMotion : MiniMotionConfig :=
  { progressSpeed := 0.006, smoothing := 0.2, staggerStrength := 5 }

/-- C5, counterexample to the claim as stated: with `2` items, focused index
`0` and stagger strength `5 > 0`, the farthest item (index `1`, delay
`(1 / 4) * 5 = 1.25 > 1`) already has effective progress `1` at shared
progress `0`, while the focused item's effective progress is still `0` —
the farthest item reaches full progress strictly earlier. -/
theorem toMini_farthest_reaches_first :
    calculateImageProgress pow125Approx cexMiniMotion 1 2 cexMiniState = 1 ∧
    calculateImageProgress pow125Approx cexMiniMotion 0 2 cexMiniState = 0 := by
  constructor <;>
    norm_num [calculateImageProgress, calculateStaggerDelay, cexMiniState,
      cexMiniMotion, pow125Approx]

/-- A `toMini` mini-slider state at shared progress `2`, focused on item 0. -/
def wMiniState : MiniState :=
  { mode := .toMini
    progress := 2
    zoomedImageIndex := some 0
    lastProgress := none }

/-- C5 witness: with the default stagger strength `0.75` (far delay
`3/16 < 1`), at a shared progress where the farthest of two items has
effective progress `1`, the focused item's effective progress is `1` too. -/
theorem toMini_farthest_not_earlier_witness :
    calculateImageProgress pow125Approx defaultMiniMotion 0 2 wMiniState = 1 :=
  toMini_farthest_not_earlier pow125Approx defaultMiniMotion wMiniState 0 1 2
    rfl rfl rfl
    (by norm_num [calculateStaggerDelay, defaultMiniMotion, wMiniState, pow125Approx])
    (by norm_num [calculateImageProgress, calculateStaggerDelay, defaultMiniMotion,
      wMiniState, pow125Approx])

/-- `ImageZoomSystem.state`, together with its owned `stageSystem`. -/
structure ZoomState where
  isActive : Bool
  isZoomingOut : Bool
  isZoomingIn : Bool
  imageIndex : Option ℕ
  progress : ℚ
  stage : StageState
deriving DecidableEq

/-- `ImageZoomSystem.params.transitionSmoothing`. -/
def transitionSmoothing : ℚ := 0.13

/-- `ImageZoomSystem.params.isCompleteThreshold`. -/
def isCompleteThreshold : ℚ := 0.0000001

/-- `ImageZoomSystem.zoomIn(imageIndex)`.  The guarded
`if (isZoomingOut) isZoomingOut = false` collapses to an unconditional
clear. -/
def zoomIn (imageIndex : ℕ) (z : ZoomState) : ZoomState :=
  { z with
    isZoomingOut := false
    isActive := true
    isZoomingIn := true
    imageIndex := some imageIndex
    progress := 0
    stage := initializeStage imageIndex z.stage }

/-- `ImageZoomSystem.zoomOut()`. -/
def zoomOut (z : ZoomState) : ZoomState :=
  { z with isZoomingOut := true, isZoomingIn := false }

/-- `ImageZoomSystem.transitionToImage(newIndex)`. -/
def zoomTransitionToImage (newIndex : ℕ) (z : ZoomState) : ZoomState :=
  if some newIndex ≠ z.imageIndex then
    { z with stage := transitionTo newIndex z.stage, imageIndex := some newIndex }
  else z

/-- `ImageZoomSystem.jumpToImage(newIndex)`. -/
def zoomJumpToImage (newIndex : ℕ) (z : ZoomState) : ZoomState :=
  if some newIndex ≠ z.imageIndex then
    { z with stage := stageJumpToImage newIndex z.stage, imageIndex := some newIndex }
  else z

/-- `ImageZoomSystem.updateAnimation(dt)`: scaled time step (20% entering,
80% otherwise), proportional closing of `progress` toward `1` (entering) or
`0` (exiting), stage update with the scaled step, and deactivation when an
exit's progress falls below the completion threshold. -/
def zoomUpdate (dt : ℚ) (z : ZoomState) : ZoomState :=
  if z.isActive then
    let dt2 := if z.isZoomingIn then dt * 0.2 else dt * 0.8
    let targetProgress : ℚ := if z.isZoomingOut then 0 else 1
    let progress2 := z.progress + (targetProgress - z.progress) * transitionSmoothing * dt2
    let stage2 := stageUpdate dt2 z.stage
    if z.isZoomingOut ∧ progress2 < isCompleteThreshold then
      { z with progress := progress2, stage := stage2, isZoomingOut := false, isActive := false }
    else
      { z with progress := progress2, stage := stage2 }
  else
    z

/-- C9: `zoomOut` mutates only the two direction flags — `isZoomingOut`
becomes true and `isZoomingIn` false — while `progress`, `imageIndex`,
`isActive` and the whole owned stage system (hence every per-slot offset)
are unchanged, so a subsequent exit animation decays from exactly the
progress the interrupted entry had reached. -/
theorem zoomOut_frame_effect (z : ZoomState) :
    (zoomOut z).isZoomingOut = true ∧
    (zoomOut z).isZoomingIn = false ∧
    (zoomOut z).progress = z.progress ∧
    (zoomOut z).imageIndex = z.imageIndex ∧
    (zoomOut z).isActive = z.isActive ∧
    (zoomOut z).stage = z.stage :=
  ⟨rfl, rfl, rfl, rfl, rfl, rfl⟩

/-- The center reticle sub-state of `CrossAnimationSystem.state`. -/
structure CrossCenter where
  isVisible : Bool
  isAnimatingIn : Bool
  isAnimatingOut : Bool
  currentLength : ℚ
  showDelayRemaining : ℚ
deriving DecidableEq

/-- The sides reticle sub-state of `CrossAnimationSystem.state` (carries the
rotation fields). -/
structure CrossSides where
  isVisible : Bool
  isAnimatingIn : Bool
  isAnimatingOut : Bool
  currentLength : ℚ
  showDelayRemaining : ℚ
  currentRotation : ℚ
  targetRotation : ℚ
  isRotating : Bool
deriving DecidableEq

/-- `CrossAnimationSystem.state`. -/
structure CrossState where
  center : CrossCenter
  sides : CrossSides
deriving DecidableEq

/-- `CrossAnimationSystem.params.smoothing`. -/
def crossSmoothing : ℚ := 0.15

/-- `CrossAnimationSystem.params.maxLineLength`. -/
def maxLineLength : ℚ := 11

/-- `CrossAnimationSystem.params.showMinThreshold`. -/
def showMinThreshold : ℚ := 0.01

/-- `CrossAnimationSystem.params.centerShowDelay`. -/
def centerShowDelay : ℚ := 0.2

/-- `CrossAnimationSystem.params.sidesShowDelay`. -/
def sidesShowDelay : ℚ := 0.2

/-- `CrossAnimationSystem.params.delaySlowFactor`. -/
def delaySlowFactor : ℚ := 0.005

/-- `CrossAnimationSystem.params.rotationSmoothing`. -/
def rotationSmoothing : ℚ := 0.075

/-- The exact value of the IEEE-754 double `Math.PI`
(`884279719003555 / 2^48`). -/
def piQ : ℚ := 884279719003555 / 281474976710656

/-- `CrossAnimationSystem.rotateSideCrosses(direction)`: ignored while the
side crosses are not visible; otherwise adds `direction * (Math.PI / 2)` to
the rotation target. -/
def rotateSideCrosses (direction : ℚ) (s : CrossState) : CrossState :=
  if !s.sides.isVisible then s
  else
    { s with sides := { s.sides with
        targetRotation := s.sides.targetRotation + direction * (piQ / 2)
        isRotating := true } }

/-- `CrossAnimationSystem.resetRotation()`. -/
def resetRotation (s : CrossState) : CrossState :=
  { s with sides := { s.sides with
      currentRotation := 0, targetRotation := 0, isRotating := false } }

/-- `CrossAnimationSystem.showCenter()`. -/
def showCenter (s : CrossState) : CrossState :=
  { s with
    center := { s.center with
      isAnimatingOut := false
      isVisible := true
      isAnimatingIn := true
      showDelayRemaining := centerShowDelay }
    sides := { s.sides with isAnimatingOut := true, isAnimatingIn := false } }

/-- `CrossAnimationSystem.hideCenter()`. -/
def hideCenter (s : CrossState) : CrossState :=
  { s with
    center := { s.center with isAnimatingOut := true, isAnimatingIn := false }
    sides := { s.sides with
      isAnimatingOut := false
      isVisible := true
      isAnimatingIn := true
      showDelayRemaining := sidesShowDelay } }

/-- The center block of `CrossAnimationSystem.updateAnimation(dt)`: delay
countdown or proportional closing of the length, with the hide-completion
check on the pre-update delta. -/
def crossCenterTick (dt : ℚ) (c : CrossCenter) : CrossCenter :=
  if c.isVisible then
    let targetLength := if c.isAnimatingOut then 0 else maxLineLength
    let centerDelta := targetLength - c.currentLength
    let c1 :=
      if c.isAnimatingIn ∧ c.showDelayRemaining > 0 then
        { c with showDelayRemaining := c.showDelayRemaining - delaySlowFactor * dt }
      else
        { c with currentLength := c.currentLength + centerDelta * crossSmoothing * dt }
    if c.isAnimatingOut ∧ |centerDelta| < showMinThreshold then
      { c1 with isAnimatingOut := false, isVisible := false, currentLength := 0 }
    else
      c1
  else
    c

/-- The sides block of `CrossAnimationSystem.updateAnimation(dt)` (identical
law to the center block; rotation fields untouched here). -/
def crossSidesTick (dt : ℚ) (c : CrossSides) : CrossSides :=
  if c.isVisible then
    let targetLength := if c.isAnimatingOut then 0 else maxLineLength
    let sidesDelta := targetLength - c.currentLength
    let c1 :=
      if c.isAnimatingIn ∧ c.showDelayRemaining > 0 then
        { c with showDelayRemaining := c.showDelayRemaining - delaySlowFactor * dt }
      else
        { c with currentLength := c.currentLength + sidesDelta * crossSmoothing * dt }
    if c.isAnimatingOut ∧ |sidesDelta| < showMinThreshold then
      { c1 with isAnimatingOut := false, isVisible := false, currentLength := 0 }
    else
      c1
  else
    c

/-- `CrossAnimationSystem.updateAnimation(dt)`: both length machines, then
the unconditional rotation proportional-closing step. -/
def crossUpdate (dt : ℚ) (s : CrossState) : CrossState :=
  let center := crossCenterTick dt s.center
  let sides := crossSidesTick dt s.sides
  let rotationDelta := sides.targetRotation - sides.currentRotation
  { s with
    center := center
    sides := { sides with
      currentRotation := sides.currentRotation + rotationDelta * rotationSmoothing * dt } }

/-- `CrossAnimationSystem.isInToMiniMode()`. -/
def crossIsInToMiniMode (s : CrossState) : Bool :=
  s.center.isAnimatingOut || s.sides.isAnimatingIn

/-- `CrossAnimationSystem.isInToSliderMode()`. -/
def crossIsInToSliderMode (s : CrossState) : Bool :=
  s.center.isAnimatingIn || s.sides.isAnimatingOut

theorem crossSidesTick_rotation (dt : ℚ) (c : CrossSides) :
    (crossSidesTick dt c).currentRotation = c.currentRotation ∧
    (crossSidesTick dt c).targetRotation = c.targetRotation := by
  simp only [crossSidesTick]
  split_ifs <;> simp

/-- C7, amended.  `rotateSideCrosses(direction)` adds
`direction * (Math.PI / 2)` to the side crosses' rotation target whenever the
side crosses are visible (while hidden the call is ignored — see the
counterexample); `resetRotation()` zeroes both current and target rotation;
and every `updateAnimation` tick closes the current rotation toward the
target proportionally, whether or not the side crosses are visible. -/
theorem side_cross_rotation (s : CrossState) (direction dt : ℚ) :
    (s.sides.isVisible = true →
      (rotateSideCrosses direction s).sides.targetRotation =
        s.sides.targetRotation + direction * (piQ / 2)) ∧
    (resetRotation s).sides.currentRotation = 0 ∧
    (resetRotation s).sides.targetRotation = 0 ∧
    (crossUpdate dt s).sides.currentRotation =
      s.sides.currentRotation +
        (s.sides.targetRotation - s.sides.currentRotation) * rotationSmoothing * dt := by
  obtain ⟨hr1, hr2⟩ := crossSidesTick_rotation dt s.sides
  refine ⟨?_, rfl, rfl, ?_⟩
  · intro hv
    simp [rotateSideCrosses, hv]
  · show (crossSidesTick dt s.sides).currentRotation +
      ((crossSidesTick dt s.sides).targetRotation -
        (crossSidesTick dt s.sides).currentRotation) * rotationSmoothing * dt = _
    rw [hr1, hr2]

/-- A cross state with the side crosses hidden at zero rotation (the
constructor state of `CrossAnimationSystem`). -/
def cexCrossState : CrossState :=
  { center :=
      { isVisible := true
        isAnimatingIn := false
        isAnimatingOut := false
        currentLength := 11
        showDelayRemaining := 0 }
    sides :=
      { isVisible := false
        isAnimatingIn := false
        isAnimatingOut := false
        currentLength := 0
        showDelayRemaining := 0
        currentRotation := 0
        targetRotation := 0
        isRotating := false } }

/-- C7, counterexample to the claim as stated: with the side crosses hidden
(the constructor state), `rotateSideCrosses(1)` leaves the rotation target at
`0` instead of adding `Math.PI / 2`. -/
theorem rotate_ignored_when_sides_hidden :
    (rotateSideCrosses 1 cexCrossState).sides.targetRotation = 0 ∧
    cexCrossState.sides.targetRotation + 1 * (piQ / 2) ≠ 0 := by
  constructor
  · rfl
  · norm_num [cexCrossState, piQ]

/-- A cross state with the side crosses visible, mid-rotation. -/
def wCrossState : CrossState :=
  { center :=
      { isVisible := false
        isAnimatingIn := false
        isAnimatingOut := false
        currentLength := 0
        showDelayRemaining := 0 }
    sides :=
      { isVisible := true
        isAnimatingIn := false
        isAnimatingOut := false
        currentLength := 11
        showDelayRemaining := 0
        currentRotation := 0
        targetRotation := piQ / 2
        isRotating := true } }

/-- C7 witness: with the side crosses visible, one `rotateSideCrosses(1)`
call advances the rotation target by `Math.PI / 2`. -/
theorem side_cross_rotation_witness :
    (rotateSideCrosses 1 wCrossState).sides.targetRotation =
      wCrossState.sides.targetRotation + 1 * (piQ / 2) :=
  (side_cross_rotation wCrossState 1 0).1 rfl

/-- `TitleAnimationSystem` exit directions. -/
inductive ExitDirection where
  | top
  | bottom
deriving DecidableEq

/-- `TitleAnimationSystem.state`.  The DOM list `titleElements` is modelled
by its length `nTitles`; the transform read-back in `showTitle`/`hideTitle`
(a regex over the inline style last written from `currentPosition`) is
modelled as reading `currentPosition` itself.  The source's field name
`remainigDelay` (sic) is kept. -/
structure TitleState where
  currentTitleIndex : Option ℕ
  isAnimatingIn : Bool
  isAnimatingOut : Bool
  currentPosition : ℚ
  targetPosition : ℚ
  exitDirection : ExitDirection
  remainigDelay : ℚ
  showNextIndex : Option ℕ
  nTitles : ℕ
deriving DecidableEq

/-- `TitleAnimationSystem.params.showDelay`. -/
def titleShowDelay : ℚ := 0.025

/-- `TitleAnimationSystem.setNextTitle(index)`. -/
def setNextTitle (index : ℕ) (s : TitleState) : TitleState :=
  { s with showNextIndex := some index }

/-- `TitleAnimationSystem.resetNextTitle()`. -/
def resetNextTitle (s : TitleState) : TitleState :=
  { s with showNextIndex := none }

/-- `TitleAnimationSystem.showTitle(index, delay)`: capture the currently
shown title's offset (or `100` when none is shown) as the new start, switch
to entering toward offset `0`, with the given entry delay (default
`showDelay`). -/
def showTitle (index : ℕ) (delay : Option ℚ) (s : TitleState) : TitleState :=
  let pos : ℚ :=
    match s.currentTitleIndex with
    | some _ => s.currentPosition
    | none => 100
  { s with
    currentPosition := pos
    isAnimatingOut := false
    isAnimatingIn := true
    currentTitleIndex := some index
    targetPosition := 0
    remainigDelay := delay.getD titleShowDelay }

/-- `TitleAnimationSystem.hideTitle()`: entirely guarded by
`currentTitleIndex !== null`; when a title is shown, capture its offset,
choose the exit direction from it (`top` when the offset is under `33`),
set the matching `±100` target and switch to exiting. -/
def hideTitle (s : TitleState) : TitleState :=
  match s.currentTitleIndex with
  | none => s
  | some _ =>
    let pos : ℚ := s.currentPosition
    let exitDir : ExitDirection := if pos < 33 then .top else .bottom
    { s with
      currentPosition := pos
      exitDirection := exitDir
      targetPosition := if exitDir = .top then -100 else 100
      isAnimatingOut := true
      isAnimatingIn := false
      remainigDelay := 0 }

/-- `TitleAnimationSystem.updateAnimation(dt)`: early return without title
elements or shown title, delay countdown while entering, proportional
closing toward the target, completion at the tight threshold, and the
queued next-title chain at the loose threshold. -/
def titleUpdate (dt : ℚ) (s : TitleState) : TitleState :=
  if s.nTitles = 0 ∨ s.currentTitleIndex = none then s
  else if (match s.currentTitleIndex with
    | some i => decide (s.nTitles ≤ i)
    | none => false) then s
  else if s.isAnimatingIn ∧ s.remainigDelay > 0 then
    { s with remainigDelay := s.remainigDelay - dt / 1000 }
  else
    let smoothing : ℚ := if s.isAnimatingIn then 0.085 else 0.18
    let delta := s.targetPosition - s.currentPosition
    let s1 := { s with currentPosition := s.currentPosition + delta * smoothing * dt }
    let isVeryNearTarget := |delta| < 0.01
    let isNearTarget := |delta| < 0.1
    let s2 :=
      if isVeryNearTarget then
        if s1.isAnimatingOut then
          { s1 with
            isAnimatingOut := false
            currentTitleIndex := none
            currentPosition := s1.targetPosition }
        else if s1.isAnimatingIn then
          { s1 with isAnimatingIn := false, currentPosition := s1.targetPosition }
        else s1
      else s1
    if s2.isAnimatingOut = true ∧ isNearTarget ∧ s2.showNextIndex ≠ none then
      match s2.showNextIndex with
      | some nxt =>
        { showTitle nxt (some 0) { s2 with currentTitleIndex := none } with
          showNextIndex := none }
      | none => s2
    else s2

/-- C10: when no title is currently shown (`currentTitleIndex` is null),
`hideTitle()` returns without modifying any field of the title state — no
exit direction is chosen, no target is set, neither animating flag is
raised — so the orchestrator's unconditional hide calls are safe. -/
theorem hideTitle_noop_when_no_title (s : TitleState)
    (h : s.currentTitleIndex = none) : hideTitle s = s := by
  simp only [hideTitle, h]

/-- A title state with no title shown. -/
def wTitleState : TitleState :=
  { currentTitleIndex := none
    isAnimatingIn := false
    isAnimatingOut := false
    currentPosition := 100
    targetPosition := 100
    exitDirection := .bottom
    remainigDelay := 0
    showNextIndex := none
    nTitles := 3 }

/-- C10 witness: `hideTitle` on the concrete no-title state returns it
unchanged. -/
theorem hideTitle_noop_when_no_title_witness : hideTitle wTitleState = wTitleState :=
  hideTitle_noop_when_no_title wTitleState rfl

/-- `IndexAnimationSystem` presentation styles. -/
inductive IndexStyle where
  | snap
  | smooth
  | clipped
deriving DecidableEq

/-- The `IndexAnimationSystem` configuration constants read by
`updateIndex` and its helpers. -/
structure IndexConfig where
  style : IndexStyle
  height : ℚ
  snapAnimationSpeed : ℚ
  smoothAnimationSpeed : ℚ
  smoothNumberSpacing : ℚ
  smoothFadeSpeed : ℚ
  clippedAnimationSpeed : ℚ
  clippedNumberSpacing : ℚ
deriving DecidableEq

/-- The constructor configuration of `IndexAnimationSystem` for a given
style. -/
def defaultIndexConfig (style : IndexStyle) : IndexConfig :=
  { style := style
    height := 24
    snapAnimationSpeed := 0.25
    smoothAnimationSpeed := 0.005
    smoothNumberSpacing := 24
    smoothFadeSpeed := 0.12
    clippedAnimationSpeed := 0.008
    clippedNumberSpacing := 24 }

/-- The dynamic lookup `this.config[this.config.style].animationSpeed`
(only reached for the smooth and clipped styles). -/
def styleAnimationSpeed (cfg : IndexConfig) : ℚ :=
  match cfg.style with
  | .smooth => cfg.smoothAnimationSpeed
  | .clipped => cfg.clippedAnimationSpeed
  | .snap => cfg.snapAnimationSpeed

/-- The dynamic lookup `this.config[this.config.style].numberSpacing`
(only reached for the smooth and clipped styles; the snap block has no such
field and the branch is unreachable for it). -/
def styleNumberSpacing (cfg : IndexConfig) : ℚ :=
  match cfg.style with
  | .smooth => cfg.smoothNumberSpacing
  | .clipped => cfg.clippedNumberSpacing
  | .snap => 0

/-- `IndexAnimationSystem.state`. -/
structure IndexState where
  currentIndex : ℤ
  targetIndex : ℤ
  snapOffset : ℚ
  snapProgress : ℚ
  offset : ℚ
  transitionProgress : ℚ
  opacity : ℚ
  lastDirection : ℤ
  isTransitioning : Bool
deriving DecidableEq

/-- `IndexAnimationSystem.updateSnapAnimation(newTargetIndex)`. -/
def updateSnapAnimation (cfg : IndexConfig) (newTargetIndex : ℤ)
    (s : IndexState) : IndexState :=
  let direction : ℚ := if newTargetIndex > s.targetIndex then 1 else -1
  { s with
    currentIndex := s.targetIndex
    snapProgress := 0
    snapOffset := cfg.height * direction }

/-- `IndexAnimationSystem.updateSnapProgress()` (uses the already-updated
progress for the quadratic ease-out). -/
def updateSnapProgress (cfg : IndexConfig) (s : IndexState) : IndexState :=
  if s.snapProgress < 1 then
    let snapProgress2 := min 1 (s.snapProgress + cfg.snapAnimationSpeed)
    let easeOutQuad := 1 - (1 - snapProgress2) ^ 2
    { s with snapProgress := snapProgress2, snapOffset := s.snapOffset * (1 - easeOutQuad) }
  else
    s

/-- `IndexAnimationSystem.updateSmoothOrClippedAnimation(newTargetIndex)`:
the transitional-field reset on a target change. -/
def updateSmoothOrClippedAnimation (cfg : IndexConfig) (newTargetIndex : ℤ)
    (s : IndexState) : IndexState :=
  let direction : ℤ := if newTargetIndex > s.targetIndex then 1 else -1
  let s1 := { s with
    currentIndex := s.targetIndex
    transitionProgress := 0
    offset := styleNumberSpacing cfg * (direction : ℚ)
    lastDirection := direction
    isTransitioning := true }
  if cfg.style = .smooth then { s1 with opacity := 0 } else s1

/-- `IndexAnimationSystem.updateSmoothOrClippedProgress()`. -/
def updateSmoothOrClippedProgress (cfg : IndexConfig) (s : IndexState) : IndexState :=
  if s.isTransitioning then
    if s.transitionProgress < 1 then
      let transitionProgress2 := min 1 (s.transitionProgress + styleAnimationSpeed cfg)
      let progress := 1 - (1 - transitionProgress2) ^ 3
      let s1 := { s with
        transitionProgress := transitionProgress2
        offset := s.offset * (1 - progress) }
      if cfg.style = .smooth then
        if transitionProgress2 < cfg.smoothFadeSpeed then
          { s1 with opacity := transitionProgress2 / cfg.smoothFadeSpeed }
        else
          { s1 with opacity := 1 }
      else
        s1
    else
      let s1 := { s with isTransitioning := false, offset := 0 }
      if cfg.style = .smooth then { s1 with opacity := 1 } else s1
  else
    s

/-- The target-index computation at the top of
`IndexAnimationSystem.updateIndex`: `0` until the first boundary
`width/2 + gap/2`, then one more per `width + gap`. -/
def newTargetIndexOf (scrollPosition containerWidth containerGap : ℚ) : ℤ :=
  let transitionWidth := containerWidth + containerGap
  let halfGap := containerGap / 2
  let firstTransitionPoint := containerWidth / 2 + halfGap
  if scrollPosition ≥ firstTransitionPoint then
    1 + ⌊(scrollPosition - firstTransitionPoint) / transitionWidth⌋
  else
    0

/-- `IndexAnimationSystem.updateIndex(scrollPosition, containerWidth,
containerGap)`: recompute the target slot index, on a change run the
style-specific reset and store the new target, then advance the style's
ongoing animation. -/
def updateIndex (cfg : IndexConfig) (scrollPosition containerWidth containerGap : ℚ)
    (s : IndexState) : IndexState :=
  let newTargetIndex := newTargetIndexOf scrollPosition containerWidth containerGap
  let s1 :=
    if newTargetIndex ≠ s.targetIndex then
      if cfg.style = .snap then
        { updateSnapAnimation cfg newTargetIndex s with targetIndex := newTargetIndex }
      else
        { updateSmoothOrClippedAnimation cfg newTargetIndex s with
          targetIndex := newTargetIndex }
    else
      s
  if cfg.style = .snap then updateSnapProgress cfg s1
  else updateSmoothOrClippedProgress cfg s1

/-- The target-index formula exactly as the specification phrases it:
`0` while the position is below the slot boundary `width/2 + gap/2`, and
`1 + ⌊(position - (width/2 + gap/2)) / (width + gap)⌋` from there on. -/
def specTargetIndex (position width gap : ℚ) : ℤ :=
  if position < width / 2 + gap / 2 then 0
  else 1 + ⌊(position - (width / 2 + gap / 2)) / (width + gap)⌋

theorem newTargetIndexOf_eq_spec (pos w g : ℚ) :
    newTargetIndexOf pos w g = specTargetIndex pos w g := by
  simp only [newTargetIndexOf, specTargetIndex]
  rcases lt_or_ge pos (w / 2 + g / 2) with h | h
  · rw [if_pos h, if_neg (not_le.mpr h)]
  · rw [if_neg (not_lt.mpr h), if_pos h]

theorem updateSnapProgress_fields (cfg : IndexConfig) (s : IndexState) :
    (updateSnapProgress cfg s).currentIndex = s.currentIndex ∧
    (updateSnapProgress cfg s).targetIndex = s.targetIndex ∧
    (updateSnapProgress cfg s).lastDirection = s.lastDirection := by
  simp only [updateSnapProgress]
  split_ifs <;> simp

theorem updateSmoothOrClippedProgress_fields (cfg : IndexConfig) (s : IndexState) :
    (updateSmoothOrClippedProgress cfg s).currentIndex = s.currentIndex ∧
    (updateSmoothOrClippedProgress cfg s).targetIndex = s.targetIndex ∧
    (updateSmoothOrClippedProgress cfg s).lastDirection = s.lastDirection := by
  simp only [updateSmoothOrClippedProgress]
  split_ifs <;> simp

theorem updateSmoothOrClippedProgress_keeps_transitioning (cfg : IndexConfig)
    (s : IndexState) (h1 : s.isTransitioning = true) (h2 : s.transitionProgress < 1) :
    (updateSmoothOrClippedProgress cfg s).isTransitioning = true := by
  simp only [updateSmoothOrClippedProgress, h1, if_true, if_pos h2]
  split_ifs <;> simp [h1]

theorem updateSmoothOrClippedAnimation_fields (cfg : IndexConfig) (nt : ℤ)
    (s : IndexState) :
    (updateSmoothOrClippedAnimation cfg nt s).currentIndex = s.targetIndex ∧
    (updateSmoothOrClippedAnimation cfg nt s).lastDirection =
      (if nt > s.targetIndex then 1 else -1) ∧
    (updateSmoothOrClippedAnimation cfg nt s).isTransitioning = true ∧
    (updateSmoothOrClippedAnimation cfg nt s).transitionProgress = 0 := by
  simp only [updateSmoothOrClippedAnimation]
  split_ifs <;> simp

/-- `updateIndex` computes its target by exactly the boundary formula of the
spec — `0` when the given position is below `width/2 + gap/2`, else
`1 + ⌊(position - (width/2 + gap/2)) / (width + gap)⌋` — and exactly when
this recomputed target differs from the stored `targetIndex` the
transitional fields are reset and the direction recorded: `currentIndex`
takes the outgoing target (every style) and, for the smooth/clipped styles,
the movement direction is stored in `lastDirection` and `isTransitioning`
is raised; when the target is unchanged, `currentIndex` and `lastDirection`
are untouched.  (Helper for the render-tick theorem below, which fixes the
position actually fed in.) -/
theorem updateIndex_target_formula
    (cfg : IndexConfig) (pos w g : ℚ) (s : IndexState) :
    (updateIndex cfg pos w g s).targetIndex = specTargetIndex pos w g ∧
    (specTargetIndex pos w g ≠ s.targetIndex →
      (updateIndex cfg pos w g s).currentIndex = s.targetIndex ∧
      (cfg.style ≠ .snap →
        (updateIndex cfg pos w g s).lastDirection =
          (if specTargetIndex pos w g > s.targetIndex then 1 else -1) ∧
        (updateIndex cfg pos w g s).isTransitioning = true)) ∧
    (specTargetIndex pos w g = s.targetIndex →
      (updateIndex cfg pos w g s).currentIndex = s.currentIndex ∧
      (updateIndex cfg pos w g s).lastDirection = s.lastDirection) := by
  have hspec := newTargetIndexOf_eq_spec pos w g
  by_cases hcond : newTargetIndexOf pos w g ≠ s.targetIndex
  · by_cases hsnap : cfg.style = .snap
    · have hred : updateIndex cfg pos w g s =
          updateSnapProgress cfg
            { updateSnapAnimation cfg (newTargetIndexOf pos w g) s with
              targetIndex := newTargetIndexOf pos w g } := by
        simp only [updateIndex, if_pos hcond, if_pos hsnap]
      obtain ⟨q1, q2, q3⟩ := updateSnapProgress_fields cfg
        { updateSnapAnimation cfg (newTargetIndexOf pos w g) s with
          targetIndex := newTargetIndexOf pos w g }
      refine ⟨?_, ?_, ?_⟩
      · rw [hred, q2]
        exact hspec
      · intro _
        refine ⟨?_, fun hns => absurd hsnap hns⟩
        rw [hred, q1]
        rfl
      · intro he
        exact absurd (hspec.trans he) hcond
    · have hred : updateIndex cfg pos w g s =
          updateSmoothOrClippedProgress cfg
            { updateSmoothOrClippedAnimation cfg (newTargetIndexOf pos w g) s with
              targetIndex := newTargetIndexOf pos w g } := by
        simp only [updateIndex, if_pos hcond, if_neg hsnap]
      obtain ⟨q1, q2, q3⟩ := updateSmoothOrClippedProgress_fields cfg
        { updateSmoothOrClippedAnimation cfg (newTargetIndexOf pos w g) s with
          targetIndex := newTargetIndexOf pos w g }
      obtain ⟨r1, r2, r3, r4⟩ :=
        updateSmoothOrClippedAnimation_fields cfg (newTargetIndexOf pos w g) s
      refine ⟨?_, ?_, ?_⟩
      · rw [hred, q2]
        exact hspec
      · intro _
        refine ⟨?_, fun _ => ⟨?_, ?_⟩⟩
        · rw [hred, q1]
          exact r1
        · rw [hred, q3]
          show (updateSmoothOrClippedAnimation cfg (newTargetIndexOf pos w g) s).lastDirection = _
          rw [r2, hspec]
        · rw [hred]
          apply updateSmoothOrClippedProgress_keeps_transitioning
          · exact r3
          · show (updateSmoothOrClippedAnimation cfg (newTargetIndexOf pos w g) s).transitionProgress < 1
            rw [r4]
            norm_num
      · intro he
        exact absurd (hspec.trans he) hcond
  · push_neg at hcond
    have hred : updateIndex cfg pos w g s =
        (if cfg.style = .snap then updateSnapProgress cfg s
         else updateSmoothOrClippedProgress cfg s) := by
      simp only [updateIndex, hcond]
      simp
    refine ⟨?_, ?_, ?_⟩
    · rw [hred]
      split_ifs with hsnap
      · rw [(updateSnapProgress_fields cfg s).2.1, ← hcond]
        exact hspec
      · rw [(updateSmoothOrClippedProgress_fields cfg s).2.1, ← hcond]
        exact hspec
    · intro he
      exact absurd (hspec.symm.trans hcond) he
    · intro _
      rw [hred]
      split_ifs with hsnap
      · exact ⟨(updateSnapProgress_fields cfg s).1, (updateSnapProgress_fields cfg s).2.2⟩
      · exact ⟨(updateSmoothOrClippedProgress_fields cfg s).1,
          (updateSmoothOrClippedProgress_fields cfg s).2.2⟩

/-- The constructor state of `IndexAnimationSystem`. -/
def wIndexState : IndexState :=
  { currentIndex := 0
    targetIndex := 0
    snapOffset := 0
    snapProgress := 1
    offset := 0
    transitionProgress := 1
    opacity := 1
    lastDirection := 0
    isTransitioning := false }

/-- Concrete instance of `updateIndex_target_formula`: with the clipped
style the orchestrator uses, default dimensions (width `378`, gap `30`) and
position `500`, the recomputed target is slot `1` (boundary at `204`, next
at `612`); since the stored target was `0`, the tick stores the new target,
records direction `+1` and raises `isTransitioning`. -/
theorem updateIndex_target_formula_instance :
    (updateIndex (defaultIndexConfig .clipped) 500 378 30 wIndexState).targetIndex = 1 ∧
    (updateIndex (defaultIndexConfig .clipped) 500 378 30 wIndexState).currentIndex = 0 ∧
    (updateIndex (defaultIndexConfig .clipped) 500 378 30 wIndexState).lastDirection = 1 ∧
    (updateIndex (defaultIndexConfig .clipped) 500 378 30 wIndexState).isTransitioning
      = true := by
  have hspec : specTargetIndex 500 378 30 = 1 := by
    rw [specTargetIndex, if_neg (by norm_num)]
    rw [show ((500 : ℚ) - (378 / 2 + 30 / 2)) / (378 + 30) = 296 / 408 by norm_num]
    rw [show (1 : ℤ) = 1 + 0 by norm_num]
    congr 1
    rw [Int.floor_eq_zero_iff]
    constructor <;> norm_num
  obtain ⟨h1, h2, _⟩ :=
    updateIndex_target_formula (defaultIndexConfig .clipped) 500 378 30 wIndexState
  have hne : specTargetIndex 500 378 30 ≠ wIndexState.targetIndex := by
    rw [hspec]
    norm_num [wIndexState]
  obtain ⟨hcur, hdir⟩ := h2 hne
  obtain ⟨hlast, htrans⟩ := hdir (by decide)
  refine ⟨?_, ?_, ?_, htrans⟩
  · rw [h1, hspec]
  · rw [hcur]
    rfl
  · rw [hlast, hspec]
    norm_num [wIndexState]

/-- The `ParallaxCarousel` configuration fields the modelled orchestrator
paths read.  `viewportCenter` stands for the ambient `window.innerWidth / 2`
(`864` for the base viewport). -/
structure CarouselConfig where
  timingNormalizer : ℚ
  showTitles : Bool
  maskWidth : ℚ
  maskGap : ℚ
  viewportCenter : ℚ
  animations : ScrollConfig
  miniMotion : MiniMotionConfig
deriving DecidableEq

/-- The default configuration values of those fields. -/
def defaultCarouselConfig : CarouselConfig :=
  { timingNormalizer := 16
    showTitles := true
    maskWidth := 378
    maskGap := 30
    viewportCenter := 864
    animations := defaultAnimations
    miniMotion := defaultMiniMotion }

/-- The orchestrator-owned state: the scroll fields of
`ParallaxCarousel.state` plus the five animation subsystems and the loaded
image count. -/
structure CarouselState where
  scroll : ScrollState
  zoom : ZoomState
  mini : MiniState
  cross : CrossState
  title : TitleState
  nImages : ℕ
deriving DecidableEq

/-- `ParallaxCarousel.updateMotion(deltaTime)`: normalize the time step;
advance zoom and mini-slider while zoom is active, otherwise force the
mini-slider inactive if it is not; re-derive the reticle mode from the
mini-slider mode; advance the reticle and (when the feature is on) the title
machine; finally run the scroll physics. -/
def updateMotion (powq : ℚ → ℚ → ℚ) (expq : ℚ → ℚ) (cfg : CarouselConfig)
    (s : CarouselState) (deltaTime : ℚ) : CarouselState :=
  let dt := deltaTime / cfg.timingNormalizer
  let s1 :=
    if s.zoom.isActive then
      { s with zoom := zoomUpdate dt s.zoom, mini := miniUpdate cfg.miniMotion dt s.mini }
    else if miniIsActive s.mini then
      { s with mini := setInactive s.mini }
    else
      s
  let s2 :=
    if miniIsInToMiniMode s1.mini && !crossIsInToMiniMode s1.cross then
      { s1 with cross := hideCenter s1.cross }
    else if miniIsInToSliderMode s1.mini && !crossIsInToSliderMode s1.cross then
      { s1 with cross := showCenter s1.cross }
    else
      s1
  let s3 := { s2 with cross := crossUpdate dt s2.cross }
  let s4 := if cfg.showTitles then { s3 with title := titleUpdate dt s3.title } else s3
  { s4 with scroll := updateSliderMotion powq expq cfg.animations s4.scroll dt }

/-- Events the orchestrator reports to the console log channel. -/
inductive LogEvent where
  | invalidIndex (index : ℤ)
deriving DecidableEq

/-- `ParallaxCarousel.goToImage(index)`: warn and return on an out-of-range
index; otherwise set the scroll target for that slot and, when the zoom
system is active, transition it to the slot. -/
def goToImage (cfg : CarouselConfig) (index : ℤ) (s : CarouselState) :
    CarouselState × List LogEvent :=
  if index < 0 ∨ index ≥ (s.nImages : ℤ) then
    (s, [LogEvent.invalidIndex index])
  else
    let scroll1 :=
      updateTargetPosition cfg.viewportCenter cfg.maskWidth cfg.maskGap
        index.toNat s.scroll
    let s1 := { s with scroll := scroll1 }
    if s1.zoom.isActive then
      ({ s1 with zoom := zoomTransitionToImage index.toNat s1.zoom }, [])
    else
      (s1, [])

/-- C3: any orchestrator tick executed while the zoom system is inactive
leaves the mini-slider inactive — and when the tick found it in an active
mode, it is the `setInactive` forced during that same tick that did it
(its progress is also reset to 0), for every time step and subsystem
state. -/
theorem tick_forces_mini_inactive
    (powq : ℚ → ℚ → ℚ) (expq : ℚ → ℚ) (cfg : CarouselConfig)
    (s : CarouselState) (deltaTime : ℚ)
    (hz : s.zoom.isActive = false) :
    (updateMotion powq expq cfg s deltaTime).mini.mode = .inactive ∧
    (s.mini.mode ≠ .inactive →
      (updateMotion powq expq cfg s deltaTime).mini.progress = 0) := by
  by_cases hm : s.mini.mode = .inactive
  · have hmini : (updateMotion powq expq cfg s deltaTime).mini = s.mini := by
      simp only [updateMotion, hz, miniIsActive, hm]
      simp
      split_ifs <;> rfl
    rw [hmini]
    exact ⟨hm, fun hne => absurd hm hne⟩
  · have hmini : (updateMotion powq expq cfg s deltaTime).mini = setInactive s.mini := by
      simp only [updateMotion, hz, miniIsActive, hm]
      simp [hm]
      split_ifs <;> rfl
    rw [hmini]
    exact ⟨rfl, fun _ => rfl⟩

theorem zoomTransitionToImage_imageIndex (n : ℕ) (z : ZoomState) :
    (zoomTransitionToImage n z).imageIndex = some n := by
  simp only [zoomTransitionToImage]
  split_ifs with h
  · rfl
  · push_neg at h
    exact h.symm

/-- C8: for every index outside `[0, imageCount)`, `goToImage` reports an
invalid-index warning to the log channel and returns with the whole state —
scroll target, position, velocity and zoom system included — unchanged; for
every index inside the bounds it emits no warning, sets the scroll target
toward that slot (the `updateTargetPosition` value) and, when zoom is
active, moves the zoom focus to that slot. -/
theorem goToImage_invalid_index
    (cfg : CarouselConfig) (index : ℤ) (s : CarouselState) :
    (¬ (0 ≤ index ∧ index < (s.nImages : ℤ)) →
      goToImage cfg index s = (s, [LogEvent.invalidIndex index])) ∧
    ((0 ≤ index ∧ index < (s.nImages : ℤ)) →
      (goToImage cfg index s).2 = [] ∧
      (goToImage cfg index s).1.scroll.targetPosition =
        some (s.scroll.currentPosition +
          ((index.toNat : ℚ) * (cfg.maskWidth + cfg.maskGap) - s.scroll.smoothPosition)) ∧
      (s.zoom.isActive = true →
        (goToImage cfg index s).1.zoom.imageIndex = some index.toNat)) := by
  constructor
  · intro h
    have hcond : index < 0 ∨ index ≥ (s.nImages : ℤ) := by omega
    simp only [goToImage, if_pos hcond]
  · intro h
    have hcond : ¬ (index < 0 ∨ index ≥ (s.nImages : ℤ)) := by omega
    simp only [goToImage, if_neg hcond]
    by_cases hza : s.zoom.isActive = true
    · rw [if_pos hza]
      refine ⟨rfl, ?_, fun _ => zoomTransitionToImage_imageIndex index.toNat s.zoom⟩
      show (updateTargetPosition cfg.viewportCenter cfg.maskWidth cfg.maskGap
        index.toNat s.scroll).targetPosition = _
      simp only [updateTargetPosition]
      congr 1
      ring
    · rw [if_neg hza]
      refine ⟨rfl, ?_, fun hza2 => absurd hza2 hza⟩
      show (updateTargetPosition cfg.viewportCenter cfg.maskWidth cfg.maskGap
        index.toNat s.scroll).targetPosition = _
      simp only [updateTargetPosition]
      congr 1
      ring

/-- A zoom state that is inactive (as after a completed zoom-out), owning
the concrete three-slot stage state. -/
def wZoomState : ZoomState :=
  { isActive := false
    isZoomingOut := false
    isZoomingIn := false
    imageIndex := some 1
    progress := 0
    stage := wStageState }

/-- A concrete full orchestrator state: zoom inactive while the mini-slider
is still in `toMini` mode (the stale situation C3's rule cleans up). -/
def wCarouselState : CarouselState :=
  { scroll := wTargetState
    zoom := wZoomState
    mini := wMiniState
    cross := wCrossState
    title := wTitleState
    nImages := 3 }

/-- C3 witness: one orchestrator tick on the concrete state with zoom
inactive and the mini-slider still in `toMini` mode forces the mini-slider
inactive and resets its progress. -/
theorem tick_forces_mini_inactive_witness :
    (updateMotion powApprox expApprox defaultCarouselConfig wCarouselState 16).mini.mode
      = .inactive ∧
    (updateMotion powApprox expApprox defaultCarouselConfig wCarouselState 16).mini.progress
      = 0 := by
  have h := tick_forces_mini_inactive powApprox expApprox defaultCarouselConfig
    wCarouselState 16 rfl
  exact ⟨h.1, h.2 (by decide)⟩

/-- The index-counter step of `ParallaxCarousel.render()` when the index
feature is enabled: `indexAnimation.updateIndex(this.state.smoothPosition,
scaledDimensions.maskWidth, scaledDimensions.maskGap)` — the position fed in
is the lagged `smoothPosition`, and the system was constructed with the
clipped style. -/
def renderIndexTick (cfg : CarouselConfig) (scroll : ScrollState)
    (ix : IndexState) : IndexState :=
  updateIndex (defaultIndexConfig .clipped) scroll.smoothPosition
    cfg.maskWidth cfg.maskGap ix

/-- Evaluation of the boundary formula at position `300` with the default
dimensions: `300 ≥ 204`, and `⌊(300 - 204) / 408⌋ = 0`, so the target is
slot `1`. -/
theorem specTargetIndex_at_300 : specTargetIndex 300 378 30 = 1 := by
  rw [specTargetIndex, if_neg (by norm_num)]
  rw [show ((300 : ℚ) - (378 / 2 + 30 / 2)) / (378 + 30) = 96 / 408 by norm_num]
  rw [show (1 : ℤ) = 1 + 0 by norm_num]
  congr 1
  rw [Int.floor_eq_zero_iff]
  constructor <;> norm_num

/-- A scroll state whose authoritative `currentPosition` (`300`, past the
first slot boundary `204`) and lagged `smoothPosition` (`100`, before it)
straddle a slot boundary. -/
def cexIndexScroll : ScrollState :=
  { currentPosition := 300
    smoothPosition := 100
    velocity := 0
    targetPosition := none
    minScroll := 0
    maxScroll := 408 }

/-- C6, counterexample to the claim as stated: the claim derives the target
from the authoritative scroll position (`currentPosition`, per the data
model), but the render tick feeds the lagged `smoothPosition` to
`updateIndex`.  With `currentPosition = 300` and `smoothPosition = 100`
straddling the first slot boundary `204`, the render tick computes target
`0` while the claimed formula applied to the authoritative position gives
`1`. -/
theorem render_index_uses_smooth_position :
    (renderIndexTick defaultCarouselConfig cexIndexScroll wIndexState).targetIndex = 0 ∧
    specTargetIndex cexIndexScroll.currentPosition defaultCarouselConfig.maskWidth
      defaultCarouselConfig.maskGap = 1 := by
  constructor
  · have h := (updateIndex_target_formula (defaultIndexConfig .clipped)
      cexIndexScroll.smoothPosition defaultCarouselConfig.maskWidth
      defaultCarouselConfig.maskGap wIndexState).1
    rw [renderIndexTick, h]
    rw [show cexIndexScroll.smoothPosition = (100 : ℚ) from rfl,
      show defaultCarouselConfig.maskWidth = (378 : ℚ) from rfl,
      show defaultCarouselConfig.maskGap = (30 : ℚ) from rfl]
    rw [specTargetIndex, if_pos (by norm_num)]
  · rw [show cexIndexScroll.currentPosition = (300 : ℚ) from rfl,
      show defaultCarouselConfig.maskWidth = (378 : ℚ) from rfl,
      show defaultCarouselConfig.maskGap = (30 : ℚ) from rfl]
    exact specTargetIndex_at_300

/-- C6, amended.  On every render tick with the index feature enabled, the
counter recomputes its target slot index from the lagged smoothed scroll
position `state.smoothPosition` — not the authoritative `currentPosition`
(see the counterexample) — as `0` below the slot boundary
`width/2 + gap/2` and `1 + ⌊(smoothPosition - boundary) / (width + gap)⌋`
beyond it; exactly when this target differs from the stored `targetIndex`,
the active (clipped) style's transitional fields are reset and the movement
direction recorded (`currentIndex` takes the outgoing target,
`lastDirection` the sign of the move, `isTransitioning` is raised), and when
it does not differ, `currentIndex` and `lastDirection` are untouched. -/
theorem render_tick_index_target
    (cfg : CarouselConfig) (scroll : ScrollState) (ix : IndexState) :
    (renderIndexTick cfg scroll ix).targetIndex =
      specTargetIndex scroll.smoothPosition cfg.maskWidth cfg.maskGap ∧
    (specTargetIndex scroll.smoothPosition cfg.maskWidth cfg.maskGap ≠ ix.targetIndex →
      (renderIndexTick cfg scroll ix).currentIndex = ix.targetIndex ∧
      (renderIndexTick cfg scroll ix).lastDirection =
        (if specTargetIndex scroll.smoothPosition cfg.maskWidth cfg.maskGap > ix.targetIndex
          then 1 else -1) ∧
      (renderIndexTick cfg scroll ix).isTransitioning = true) ∧
    (specTargetIndex scroll.smoothPosition cfg.maskWidth cfg.maskGap = ix.targetIndex →
      (renderIndexTick cfg scroll ix).currentIndex = ix.currentIndex ∧
      (renderIndexTick cfg scroll ix).lastDirection = ix.lastDirection) := by
  obtain ⟨h1, h2, h3⟩ := updateIndex_target_formula (defaultIndexConfig .clipped)
    scroll.smoothPosition cfg.maskWidth cfg.maskGap ix
  refine ⟨h1, fun hne => ?_, h3⟩
  obtain ⟨hc, hd⟩ := h2 hne
  obtain ⟨hl, ht⟩ := hd (by decide)
  exact ⟨hc, hl, ht⟩

/-- A scroll state resting at position `300` (smoothed position equal). -/
def wRenderScroll : ScrollState :=
  { currentPosition := 300
    smoothPosition := 300
    velocity := 0
    targetPosition := none
    minScroll := 0
    maxScroll := 408 }

/-- C6 witness: a render tick at smoothed position `300` (slot boundary at
`204`) moves the stored target from `0` to `1`, sets `currentIndex` to the
outgoing target, records direction `+1` and raises `isTransitioning`. -/
theorem render_tick_index_target_witness :
    (renderIndexTick defaultCarouselConfig wRenderScroll wIndexState).targetIndex = 1 ∧
    (renderIndexTick defaultCarouselConfig wRenderScroll wIndexState).currentIndex = 0 ∧
    (renderIndexTick defaultCarouselConfig wRenderScroll wIndexState).lastDirection = 1 ∧
    (renderIndexTick defaultCarouselConfig wRenderScroll wIndexState).isTransitioning
      = true := by
  have hspec : specTargetIndex wRenderScroll.smoothPosition
      defaultCarouselConfig.maskWidth defaultCarouselConfig.maskGap = 1 := by
    rw [show wRenderScroll.smoothPosition = (300 : ℚ) from rfl,
      show defaultCarouselConfig.maskWidth = (378 : ℚ) from rfl,
      show defaultCarouselConfig.maskGap = (30 : ℚ) from rfl]
    exact specTargetIndex_at_300
  obtain ⟨h1, h2, _⟩ :=
    render_tick_index_target defaultCarouselConfig wRenderScroll wIndexState
  have hne : specTargetIndex wRenderScroll.smoothPosition
      defaultCarouselConfig.maskWidth defaultCarouselConfig.maskGap
        ≠ wIndexState.targetIndex := by
    rw [hspec]
    norm_num [wIndexState]
  obtain ⟨hcur, hlast, htrans⟩ := h2 hne
  refine ⟨?_, ?_, ?_, htrans⟩
  · rw [h1, hspec]
  · rw [hcur]
    rfl
  · rw [hlast, hspec]
    norm_num [wIndexState]

/-- C8 witness: `goToImage(5)` on the concrete three-image state reports the
invalid index and leaves the state untouched, while `goToImage(1)` emits no
warning. -/
theorem goToImage_invalid_index_witness :
    goToImage defaultCarouselConfig 5 wCarouselState =
      (wCarouselState, [LogEvent.invalidIndex 5]) ∧
    (goToImage defaultCarouselConfig 1 wCarouselState).2 = [] :=
  ⟨(goToImage_invalid_index defaultCarouselConfig 5 wCarouselState).1 (by decide),
   ((goToImage_invalid_index defaultCarouselConfig 1 wCarouselState).2 (by decide)).1⟩

end Carousel
